import Mathlib

/-!
# Verification of the dmenu facade (`src/lib.rs`)

A shallow embedding of the dmenu wrapper crate.  The library is a
configuration builder (`DMenu`), a command-line renderer (`to_command`),
and three execution entry points (`execute`, `execute_consume`,
`execute_as_input`).  The external selection program is modelled by a
`ShellOutcome` parameter: either the child process failed to launch, or
it exited and produced a list of stdout bytes.  UTF-8 decoding of those
bytes (Rust's `String::from_utf8`) is embedded as `utf8Decode`.
-/

/-- `Color<'a>(pub &'a str)`: an opaque wrapper around a color string. -/
structure Color where
  val : String
deriving DecidableEq, Repr

/-- The `DMenu<'a>` configuration struct, field for field. -/
structure DMenu where
  on_top : Bool
  case_insensitive : Bool
  vertical_lines : Option Int
  monitor : Option Int
  prompt : Option String
  font : Option String
  normal_background_color : Option Color
  normal_foreground_color : Option Color
  selected_background_color : Option Color
  selected_foreground_color : Option Color
deriving DecidableEq, Repr

/-- `impl Default for DMenu`: `on_top = true`, `case_insensitive = false`,
every optional field `None`. -/
def DMenu.default : DMenu where
  on_top := true
  case_insensitive := false
  vertical_lines := none
  monitor := none
  prompt := none
  font := none
  normal_background_color := none
  normal_foreground_color := none
  selected_background_color := none
  selected_foreground_color := none

/-- `DMenu::display_bottom`. -/
def DMenu.display_bottom (d : DMenu) : DMenu :=
  { d with on_top := false }

/-- `DMenu::case_insensitive`.  (Named `set_case_insensitive` here because
Lean does not allow a method sharing the name of the field projection.) -/
def DMenu.set_case_insensitive (d : DMenu) : DMenu :=
  { d with case_insensitive := true }

/-- `DMenu::vertical_with_lines`. -/
def DMenu.vertical_with_lines (d : DMenu) (amount : Int) : DMenu :=
  { d with vertical_lines := some amount }

/-- `DMenu::display_on_monitor`. -/
def DMenu.display_on_monitor (d : DMenu) (monitor_id : Int) : DMenu :=
  { d with monitor := some monitor_id }

/-- `DMenu::with_prompt`. -/
def DMenu.with_prompt (d : DMenu) (prompt : String) : DMenu :=
  { d with prompt := some prompt }

/-- `DMenu::with_font`. -/
def DMenu.with_font (d : DMenu) (font : String) : DMenu :=
  { d with font := some font }

/-- `DMenu::with_colors`: replaces all four color slots with the four
arguments. -/
def DMenu.with_colors (d : DMenu)
    (normal_background_color : Option Color)
    (normal_foreground_color : Option Color)
    (selected_background_color : Option Color)
    (selected_foreground_color : Option Color) : DMenu :=
  { d with
    normal_background_color := normal_background_color
    normal_foreground_color := normal_foreground_color
    selected_background_color := selected_background_color
    selected_foreground_color := selected_foreground_color }

/-- `DMenu::to_command`: sequentially pushes each flag fragment onto the
base token `"dmenu"`, exactly mirroring the chain of `push_str` calls. -/
def DMenu.to_command (d : DMenu) : String :=
  let command := "dmenu"
  let command := if !d.on_top then command ++ " -b" else command
  let command := if d.case_insensitive then command ++ " -i" else command
  let command := match d.vertical_lines with
    | some lines => command ++ (" -l " ++ toString lines)
    | none => command
  let command := match d.monitor with
    | some monitor_index => command ++ (" -m " ++ toString monitor_index)
    | none => command
  let command := match d.prompt with
    | some prompt => command ++ (" -p '" ++ prompt ++ "'")
    | none => command
  let command := match d.font with
    | some font => command ++ (" -fn '" ++ font ++ "'")
    | none => command
  let command := match d.normal_background_color with
    | some nb => command ++ (" -nb '" ++ nb.val ++ "'")
    | none => command
  let command := match d.normal_foreground_color with
    | some nf => command ++ (" -nf '" ++ nf.val ++ "'")
    | none => command
  let command := match d.selected_background_color with
    | some sb => command ++ (" -sb '" ++ sb.val ++ "'")
    | none => command
  let command := match d.selected_foreground_color with
    | some sf => command ++ (" -sf '" ++ sf.val ++ "'")
    | none => command
  command

/-- Renders an optional flag fragment: the empty string when the field is
absent.  Used only by `toCommandSpec` below. -/
def optFlag {β : Type} (render : β → String) : Option β → String
  | some x => render x
  | none => ""

/-- The specification-side command renderer, written from the spec's
words (§4.2): the base token followed by the flag fragments in the fixed
order `-b`, `-i`, `-l`, `-m`, `-p`, `-fn`, `-nb`, `-nf`, `-sb`, `-sf`,
where a field left at its default contributes the empty fragment.  It is
compared with the implementation's `DMenu.to_command`. -/
def toCommandSpec (d : DMenu) : String :=
  "dmenu"
  ++ (if d.on_top then "" else " -b")
  ++ (if d.case_insensitive then " -i" else "")
  ++ optFlag (fun n => " -l " ++ toString n) d.vertical_lines
  ++ optFlag (fun n => " -m " ++ toString n) d.monitor
  ++ optFlag (fun p => " -p '" ++ p ++ "'") d.prompt
  ++ optFlag (fun f => " -fn '" ++ f ++ "'") d.font
  ++ optFlag (fun c => " -nb '" ++ c.val ++ "'") d.normal_background_color
  ++ optFlag (fun c => " -nf '" ++ c.val ++ "'") d.normal_foreground_color
  ++ optFlag (fun c => " -sb '" ++ c.val ++ "'") d.selected_background_color
  ++ optFlag (fun c => " -sf '" ++ c.val ++ "'") d.selected_foreground_color

/-- The closed set of failure kinds of an execution call (§7 of the spec):
the boxed `std::io::Error` from `Command::output`, the boxed
`FromUtf8Error` from `String::from_utf8`, and `ItemNotFoundError`. -/
inductive DmenuError where
  | launchFailure
  | utf8Error
  | itemNotFound
deriving DecidableEq, Repr

/-- The observable behaviour of the spawned shell pipeline: either the
child process could not be started (`Command::output` returned `Err`), or
it exited and its whole stdout was captured as bytes. -/
inductive ShellOutcome where
  | launchFail
  | output (stdout : List Nat)

/-- Is `b` a UTF-8 continuation byte (`0x80..=0xBF`)? -/
def isContByte (b : Nat) : Bool :=
  0x80 ≤ b && b < 0xC0

/-- UTF-8 validation and decoding of a byte list, as performed by Rust's
`String::from_utf8`: rejects overlong encodings, surrogate code points
and code points above `0x10FFFF`; `none` models `FromUtf8Error`. -/
def utf8Decode : List Nat → Option (List Char)
  | [] => some []
  | b :: rest =>
    if b < 0x80 then
      (utf8Decode rest).map (fun cs => Char.ofNat b :: cs)
    else if b < 0xC2 then none
    else if b < 0xE0 then
      match rest with
      | c1 :: rest2 =>
        if isContByte c1 then
          (utf8Decode rest2).map
            (fun cs => Char.ofNat ((b - 0xC0) * 0x40 + (c1 - 0x80)) :: cs)
        else none
      | [] => none
    else if b < 0xF0 then
      match rest with
      | c1 :: c2 :: rest2 =>
        let lo1 := if b = 0xE0 then 0xA0 else 0x80
        let hi1 := if b = 0xED then 0xA0 else 0xC0
        if (lo1 ≤ c1 && c1 < hi1) && isContByte c2 then
          (utf8Decode rest2).map
            (fun cs =>
              Char.ofNat ((b - 0xE0) * 0x1000 + (c1 - 0x80) * 0x40 + (c2 - 0x80)) :: cs)
        else none
      | _ => none
    else if b < 0xF5 then
      match rest with
      | c1 :: c2 :: c3 :: rest2 =>
        let lo1 := if b = 0xF0 then 0x90 else 0x80
        let hi1 := if b = 0xF4 then 0x90 else 0xC0
        if (lo1 ≤ c1 && c1 < hi1) && isContByte c2 && isContByte c3 then
          (utf8Decode rest2).map
            (fun cs =>
              Char.ofNat ((b - 0xF0) * 0x40000 + (c1 - 0x80) * 0x1000
                + (c2 - 0x80) * 0x40 + (c3 - 0x80)) :: cs)
        else none
      | _ => none
    else none

/-- The two fallible steps preceding the lookup, shared verbatim by all
three entry points: `.output()?` (launch failure propagated) followed by
`String::from_utf8(shell_output.stdout)?` (decode failure propagated);
on success the decoded stdout text is produced. -/
def decodeStdout : ShellOutcome → Except DmenuError String
  | .launchFail => .error .launchFailure
  | .output bytes =>
    match utf8Decode bytes with
    | none => .error .utf8Error
    | some cs => .ok (String.mk cs)

/-- The per-call lookup mapping in insertion order: for each item,
`format!("{}\n", item)` is the key (display text plus trailing newline)
and the item the value.  `display` plays the role of the `Display`
trait's rendering. -/
def buildMap {α : Type} (display : α → String) (list : List α) :
    List (String × α) :=
  list.map (fun item => (display item ++ "\n", item))

/-- `HashMap::get` (and `HashMap::remove`) over the insertion sequence: a
later `insert` with the same key overwrites an earlier one, so the lookup
prefers the entry inserted last. -/
def mapGet {α : Type} (entries : List (String × α)) (key : String) :
    Option α :=
  match entries with
  | [] => none
  | e :: rest =>
    match mapGet rest key with
    | some v => some v
    | none => if e.1 = key then some e.2 else none

/-- `DMenu::execute`: build the mapping, run the shell pipeline (its
outcome is the external nondeterminism `r`), decode stdout, and look the
decoded text up verbatim; a miss is `ItemNotFoundError`. -/
def DMenu.execute {α : Type} (_d : DMenu) (list : List α)
    (display : α → String) (r : ShellOutcome) : Except DmenuError α :=
  let map := buildMap display list
  match decodeStdout r with
  | .error e => .error e
  | .ok chosen =>
    match mapGet map chosen with
    | some found => .ok found
    | none => .error .itemNotFound

/-- `DMenu::execute_consume`: the same algorithm with an owned map
(`map.remove(&chosen)` yields the same hit-or-miss as `map.get`). -/
def DMenu.execute_consume {α : Type} (_d : DMenu) (list : List α)
    (display : α → String) (r : ShellOutcome) : Except DmenuError α :=
  let map := buildMap display list
  match decodeStdout r with
  | .error e => .error e
  | .ok chosen =>
    match mapGet map chosen with
    | some found => .ok found
    | none => .error .itemNotFound

/-- `DMenu::execute_as_input`: no items; decode stdout and then
`string.pop()` — remove the final character, whatever it is (a no-op on
the empty string) — and return the text. -/
def DMenu.execute_as_input (_d : DMenu) (r : ShellOutcome) :
    Except DmenuError String :=
  match decodeStdout r with
  | .error e => .error e
  | .ok string => .ok (string.dropRight 1)

/-- A lookup misses exactly when no inserted key equals the probe. -/
lemma mapGet_eq_none_iff {α : Type} (entries : List (String × α)) (key : String) :
    mapGet entries key = none ↔ ∀ p ∈ entries, p.1 ≠ key := by
  induction entries with
  | nil => simp [mapGet]
  | cons e rest ih =>
    rw [mapGet]
    rcases h : mapGet rest key with _ | v
    · have hrest := ih.mp h
      constructor
      · intro hif
        by_cases hk : e.1 = key
        · simp [hk] at hif
        · intro p hp
          rcases List.mem_cons.mp hp with rfl | hp2
          · exact hk
          · exact hrest p hp2
      · intro hall
        have hne : e.1 ≠ key := hall e (List.mem_cons_self e rest)
        simp [hne]
    · constructor
      · intro hc; simp at hc
      · intro hall
        have hn : mapGet rest key = none :=
          ih.mpr (fun p hp => hall p (List.mem_cons_of_mem e hp))
        rw [h] at hn
        simp at hn

/-- When the inserted keys are pairwise distinct, looking up the key of
an inserted entry returns that entry's value. -/
lemma mapGet_mem_of_nodup {α : Type} (entries : List (String × α)) (key : String)
    (v : α) (hmem : (key, v) ∈ entries)
    (hnd : (entries.map Prod.fst).Nodup) : mapGet entries key = some v := by
  induction entries with
  | nil => simp at hmem
  | cons e rest ih =>
    rw [List.map_cons, List.nodup_cons] at hnd
    obtain ⟨hnotin, hndrest⟩ := hnd
    rcases List.mem_cons.mp hmem with heq | hmem2
    · subst heq
      have hnone : mapGet rest key = none := by
        rw [mapGet_eq_none_iff]
        intro p hp hkey
        have hin : p.1 ∈ List.map Prod.fst rest := List.mem_map_of_mem Prod.fst hp
        rw [hkey] at hin
        exact hnotin hin
      rw [mapGet, hnone]
      simp
    · have hsome := ih hmem2 hndrest
      rw [mapGet, hsome]

/-- Decoding the shell outcome itself never yields `ItemNotFoundError`:
its only errors are launch failure and UTF-8 failure. -/
lemma decodeStdout_ne_itemNotFound (r : ShellOutcome) :
    decodeStdout r ≠ Except.error DmenuError.itemNotFound := by
  cases r with
  | launchFail => simp [decodeStdout]
  | output bytes =>
    simp only [decodeStdout]
    rcases utf8Decode bytes with _ | cs <;> simp

set_option maxHeartbeats 1000000 in
/-- The sequential `push_str` renderer agrees with the spec-side renderer
with its fixed flag order, for every configuration. -/
lemma to_command_eq_spec (d : DMenu) : d.to_command = toCommandSpec d := by
  obtain ⟨t, ci, vl, mo, pr, fo, nb, nf, sb, sf⟩ := d
  cases t <;> cases ci <;> cases vl <;> cases mo <;> cases pr <;> cases fo <;>
    cases nb <;> cases nf <;> cases sb <;> cases sf <;>
      simp [DMenu.to_command, toCommandSpec, optFlag, String.append_assoc]

/-- C1: for a list whose rendered display texts (display text plus a
trailing newline) are pairwise distinct, if the external program's
decoded stdout equals the rendered text of item `k`, then `execute`
returns `Ok` of item `k` and `execute_consume` returns `Ok` of the owned
item `k`. -/
theorem execute_roundtrip_unique {α : Type} (d : DMenu) (list : List α)
    (display : α → String) (k : Fin list.length) (r : ShellOutcome)
    (hnd : (list.map (fun i => display i ++ "\n")).Nodup)
    (hr : decodeStdout r = .ok (display (list.get k) ++ "\n")) :
    d.execute list display r = .ok (list.get k) ∧
      d.execute_consume list display r = .ok (list.get k) := by
  have hkeys : (buildMap display list).map Prod.fst
      = list.map (fun i => display i ++ "\n") := by
    simp [buildMap, List.map_map, Function.comp]
  have hmem : (display (list.get k) ++ "\n", list.get k) ∈ buildMap display list :=
    List.mem_map_of_mem (fun item => (display item ++ "\n", item))
      (list.get_mem k.1 k.2)
  have hget := mapGet_mem_of_nodup (buildMap display list)
    (display (list.get k) ++ "\n") (list.get k) hmem (by rw [hkeys]; exact hnd)
  simp only [List.get_eq_getElem] at hget
  constructor <;> simp [DMenu.execute, DMenu.execute_consume, hr, hget]

/-- C1 witness: the round trip at the concrete list `["A", "B"]` with the
external program echoing `"B\n"` (bytes `[66, 10]`). -/
theorem execute_roundtrip_unique_witness :
    ((["A", "B"].map (fun i => id i ++ "\n")).Nodup) ∧
      DMenu.default.execute ["A", "B"] id (.output [66, 10]) = .ok "B" ∧
      DMenu.default.execute_consume ["A", "B"] id (.output [66, 10]) = .ok "B" := by
  have h := execute_roundtrip_unique DMenu.default ["A", "B"] id
    ⟨1, by decide⟩ (.output [66, 10]) (by decide) rfl
  exact ⟨by decide, h.1, h.2⟩

/-- C2: for two items `A` then `B` with identical rendered display texts,
if the decoded stdout equals that shared rendered text, `execute` returns
item `B`: the later duplicate key overwrites the earlier one. -/
theorem execute_duplicate_last_wins {α : Type} (d : DMenu) (A B : α)
    (display : α → String) (r : ShellOutcome)
    (_hAB : display A ++ "\n" = display B ++ "\n")
    (hr : decodeStdout r = .ok (display B ++ "\n")) :
    d.execute [A, B] display r = .ok B := by
  simp [DMenu.execute, hr, buildMap, mapGet]

/-- C2 witness: two distinct items `("X", 0)` and `("X", 1)` sharing the
display text `"X"`; echoing `"X\n"` (bytes `[88, 10]`) selects the
last-inserted item `("X", 1)`. -/
theorem execute_duplicate_last_wins_witness :
    ((fun p => Prod.fst p) (("X", 0) : String × Nat) ++ "\n"
        = (fun p => Prod.fst p) (("X", 1) : String × Nat) ++ "\n") ∧
      DMenu.default.execute [("X", 0), ("X", 1)] (fun p => Prod.fst p)
        (.output [88, 10]) = .ok ("X", 1) :=
  ⟨rfl, execute_duplicate_last_wins DMenu.default ("X", 0) ("X", 1)
    (fun p => Prod.fst p) (.output [88, 10]) rfl rfl⟩

/-- C3: `execute` and `execute_consume` fail with `ItemNotFoundError`
precisely when stdout decoded successfully to a text that is not the
rendered text of any item in the list. -/
theorem execute_itemNotFound_iff {α : Type} (d : DMenu) (list : List α)
    (display : α → String) (r : ShellOutcome) :
    (d.execute list display r = .error .itemNotFound ∧
      d.execute_consume list display r = .error .itemNotFound) ↔
      (∃ chosen, decodeStdout r = .ok chosen ∧
        ∀ item ∈ list, display item ++ "\n" ≠ chosen) := by
  constructor
  · rintro ⟨h1, -⟩
    rcases hr : decodeStdout r with e | chosen
    · exfalso
      simp only [DMenu.execute, hr] at h1
      simp only [Except.error.injEq] at h1
      rw [h1] at hr
      exact decodeStdout_ne_itemNotFound r hr
    · refine ⟨chosen, rfl, ?_⟩
      simp only [DMenu.execute, hr] at h1
      rcases hg : mapGet (buildMap display list) chosen with _ | found
      · intro item hitem hkey
        have hp := (mapGet_eq_none_iff (buildMap display list) chosen).mp hg
          (display item ++ "\n", item)
          (List.mem_map_of_mem (fun i => (display i ++ "\n", i)) hitem)
        exact hp hkey
      · rw [hg] at h1
        simp at h1
  · rintro ⟨chosen, hr, hmiss⟩
    have hnone : mapGet (buildMap display list) chosen = none := by
      rw [mapGet_eq_none_iff]
      intro p hp
      obtain ⟨item, hitem, rfl⟩ := List.mem_map.mp hp
      exact hmiss item hitem
    constructor <;> simp [DMenu.execute, DMenu.execute_consume, hr, hnone]

/-- C3 witness: the list `["A"]` with the external program echoing
`"C\n"` (bytes `[67, 10]`), a text matching no item. -/
theorem execute_itemNotFound_iff_witness :
    DMenu.default.execute ["A"] id (.output [67, 10]) = .error .itemNotFound ∧
      DMenu.default.execute_consume ["A"] id (.output [67, 10])
        = .error .itemNotFound :=
  (execute_itemNotFound_iff DMenu.default ["A"] id (.output [67, 10])).mpr
    ⟨"C\n", rfl, by decide⟩

/-- C4: with an empty item list the lookup mapping is empty, so `execute`
fails with `ItemNotFoundError` for every decoded stdout text, the empty
text included. -/
theorem execute_empty_list_itemNotFound {α : Type} (d : DMenu)
    (display : α → String) (r : ShellOutcome) (chosen : String)
    (hr : decodeStdout r = .ok chosen) :
    d.execute ([] : List α) display r = .error .itemNotFound := by
  simp [DMenu.execute, hr, buildMap, mapGet]

/-- C4 witness: empty item list and empty stdout still miss. -/
theorem execute_empty_list_itemNotFound_witness :
    decodeStdout (.output []) = .ok "" ∧
      DMenu.default.execute ([] : List String) id (.output [])
        = .error .itemNotFound :=
  ⟨rfl, execute_empty_list_itemNotFound DMenu.default id (.output []) "" rfl⟩

/-- C5: `to_command` emits flags in the fixed order `-b`, `-i`, `-l`,
`-m`, `-p`, `-fn`, `-nb`, `-nf`, `-sb`, `-sf` after the base token (the
equality with `toCommandSpec`), and the configuration with bottom
display, case-insensitive, 3 lines, monitor 1, prompt `Select:` and font
`X` renders exactly as stated. -/
theorem to_command_flag_order :
    (∀ d : DMenu, d.to_command = toCommandSpec d) ∧
      ((((DMenu.default.display_bottom.set_case_insensitive.vertical_with_lines
              3).display_on_monitor 1).with_prompt "Select:").with_font "X").to_command
        = "dmenu -b -i -l 3 -m 1 -p 'Select:' -fn 'X'" :=
  ⟨to_command_eq_spec, rfl⟩

/-- C6: the default constructor sets `on_top = true`,
`case_insensitive = false` and every optional field to `none`; the
default configuration renders to exactly `"dmenu"`; and in general every
field left at its default contributes the empty fragment, as exhibited by
the `toCommandSpec` closed form in which a default field's fragment is
the empty string. -/
theorem default_config_omits_flags :
    DMenu.default.on_top = true ∧ DMenu.default.case_insensitive = false ∧
      DMenu.default.vertical_lines = none ∧ DMenu.default.monitor = none ∧
      DMenu.default.prompt = none ∧ DMenu.default.font = none ∧
      DMenu.default.normal_background_color = none ∧
      DMenu.default.normal_foreground_color = none ∧
      DMenu.default.selected_background_color = none ∧
      DMenu.default.selected_foreground_color = none ∧
      DMenu.default.to_command = "dmenu" ∧
      (∀ d : DMenu, d.to_command = toCommandSpec d) :=
  ⟨rfl, rfl, rfl, rfl, rfl, rfl, rfl, rfl, rfl, rfl, rfl, to_command_eq_spec⟩

/-- C7: evaluation of the code at the failing input.  The claim says a
stdout text without a trailing newline is returned unchanged, but
`string.pop()` removes the final character unconditionally (its own
comment reads `remove newline`): for stdout `"answer"` (bytes
`[97, 110, 115, 119, 101, 114]`, no trailing newline) the code returns
`"answe"`, not `"answer"`. -/
theorem execute_as_input_pops_last_char :
    DMenu.default.execute_as_input (.output [97, 110, 115, 119, 101, 114])
      = .ok "answe" := rfl

/-- C8: `execute_as_input` never fails with `ItemNotFoundError`; any
error it returns is exactly the propagated launch or decode error of the
shell pipeline; and every successfully decoded stdout yields `Ok`. -/
theorem execute_as_input_error_modes (d : DMenu) (r : ShellOutcome) :
    d.execute_as_input r ≠ .error .itemNotFound ∧
      (∀ e, d.execute_as_input r = .error e → decodeStdout r = .error e) ∧
      (∀ s, decodeStdout r = .ok s → d.execute_as_input r = .ok (s.dropRight 1)) := by
  have hne := decodeStdout_ne_itemNotFound r
  rcases hr : decodeStdout r with e | s
  · rw [hr] at hne
    refine ⟨?_, ?_, ?_⟩
    · simp only [DMenu.execute_as_input, hr]
      exact hne
    · intro e2 hc
      simp only [DMenu.execute_as_input, hr, Except.error.injEq] at hc
      rw [hc]
    · intro s hs
      exact absurd hs (by simp)
  · refine ⟨?_, ?_, ?_⟩
    · simp [DMenu.execute_as_input, hr]
    · intro e hc
      simp [DMenu.execute_as_input, hr] at hc
    · intro s2 hs
      injection hs with hs2
      rw [← hs2]
      simp [DMenu.execute_as_input, hr]

/-- C8 witness: stdout `"a\n"` (bytes `[97, 10]`) decodes successfully
and yields `Ok "a"`. -/
theorem execute_as_input_error_modes_witness :
    DMenu.default.execute_as_input (.output [97, 10]) = .ok "a" :=
  (execute_as_input_error_modes DMenu.default (.output [97, 10])).2.2 "a\n" rfl

/-- C9: each builder setter changes exactly its named field and leaves
every other field of the input configuration unchanged; `with_colors`
replaces exactly the four color fields with its four arguments (a `none`
argument clears the slot) and leaves the six non-color fields
unchanged. -/
theorem setters_frame (d : DMenu) (n m : Int) (p f : String)
    (nb nf sb sf : Option Color) :
    (d.display_bottom.on_top = false ∧
      d.display_bottom.case_insensitive = d.case_insensitive ∧
      d.display_bottom.vertical_lines = d.vertical_lines ∧
      d.display_bottom.monitor = d.monitor ∧
      d.display_bottom.prompt = d.prompt ∧
      d.display_bottom.font = d.font ∧
      d.display_bottom.normal_background_color = d.normal_background_color ∧
      d.display_bottom.normal_foreground_color = d.normal_foreground_color ∧
      d.display_bottom.selected_background_color = d.selected_background_color ∧
      d.display_bottom.selected_foreground_color = d.selected_foreground_color) ∧
    (d.set_case_insensitive.case_insensitive = true ∧
      d.set_case_insensitive.on_top = d.on_top ∧
      d.set_case_insensitive.vertical_lines = d.vertical_lines ∧
      d.set_case_insensitive.monitor = d.monitor ∧
      d.set_case_insensitive.prompt = d.prompt ∧
      d.set_case_insensitive.font = d.font ∧
      d.set_case_insensitive.normal_background_color = d.normal_background_color ∧
      d.set_case_insensitive.normal_foreground_color = d.normal_foreground_color ∧
      d.set_case_insensitive.selected_background_color = d.selected_background_color ∧
      d.set_case_insensitive.selected_foreground_color = d.selected_foreground_color) ∧
    ((d.vertical_with_lines n).vertical_lines = some n ∧
      (d.vertical_with_lines n).on_top = d.on_top ∧
      (d.vertical_with_lines n).case_insensitive = d.case_insensitive ∧
      (d.vertical_with_lines n).monitor = d.monitor ∧
      (d.vertical_with_lines n).prompt = d.prompt ∧
      (d.vertical_with_lines n).font = d.font ∧
      (d.vertical_with_lines n).normal_background_color = d.normal_background_color ∧
      (d.vertical_with_lines n).normal_foreground_color = d.normal_foreground_color ∧
      (d.vertical_with_lines n).selected_background_color = d.selected_background_color ∧
      (d.vertical_with_lines n).selected_foreground_color = d.selected_foreground_color) ∧
    ((d.display_on_monitor m).monitor = some m ∧
      (d.display_on_monitor m).on_top = d.on_top ∧
      (d.display_on_monitor m).case_insensitive = d.case_insensitive ∧
      (d.display_on_monitor m).vertical_lines = d.vertical_lines ∧
      (d.display_on_monitor m).prompt = d.prompt ∧
      (d.display_on_monitor m).font = d.font ∧
      (d.display_on_monitor m).normal_background_color = d.normal_background_color ∧
      (d.display_on_monitor m).normal_foreground_color = d.normal_foreground_color ∧
      (d.display_on_monitor m).selected_background_color = d.selected_background_color ∧
      (d.display_on_monitor m).selected_foreground_color = d.selected_foreground_color) ∧
    ((d.with_prompt p).prompt = some p ∧
      (d.with_prompt p).on_top = d.on_top ∧
      (d.with_prompt p).case_insensitive = d.case_insensitive ∧
      (d.with_prompt p).vertical_lines = d.vertical_lines ∧
      (d.with_prompt p).monitor = d.monitor ∧
      (d.with_prompt p).font = d.font ∧
      (d.with_prompt p).normal_background_color = d.normal_background_color ∧
      (d.with_prompt p).normal_foreground_color = d.normal_foreground_color ∧
      (d.with_prompt p).selected_background_color = d.selected_background_color ∧
      (d.with_prompt p).selected_foreground_color = d.selected_foreground_color) ∧
    ((d.with_font f).font = some f ∧
      (d.with_font f).on_top = d.on_top ∧
      (d.with_font f).case_insensitive = d.case_insensitive ∧
      (d.with_font f).vertical_lines = d.vertical_lines ∧
      (d.with_font f).monitor = d.monitor ∧
      (d.with_font f).prompt = d.prompt ∧
      (d.with_font f).normal_background_color = d.normal_background_color ∧
      (d.with_font f).normal_foreground_color = d.normal_foreground_color ∧
      (d.with_font f).selected_background_color = d.selected_background_color ∧
      (d.with_font f).selected_foreground_color = d.selected_foreground_color) ∧
    ((d.with_colors nb nf sb sf).normal_background_color = nb ∧
      (d.with_colors nb nf sb sf).normal_foreground_color = nf ∧
      (d.with_colors nb nf sb sf).selected_background_color = sb ∧
      (d.with_colors nb nf sb sf).selected_foreground_color = sf ∧
      (d.with_colors nb nf sb sf).on_top = d.on_top ∧
      (d.with_colors nb nf sb sf).case_insensitive = d.case_insensitive ∧
      (d.with_colors nb nf sb sf).vertical_lines = d.vertical_lines ∧
      (d.with_colors nb nf sb sf).monitor = d.monitor ∧
      (d.with_colors nb nf sb sf).prompt = d.prompt ∧
      (d.with_colors nb nf sb sf).font = d.font) :=
  ⟨⟨rfl, rfl, rfl, rfl, rfl, rfl, rfl, rfl, rfl, rfl⟩,
    ⟨rfl, rfl, rfl, rfl, rfl, rfl, rfl, rfl, rfl, rfl⟩,
    ⟨rfl, rfl, rfl, rfl, rfl, rfl, rfl, rfl, rfl, rfl⟩,
    ⟨rfl, rfl, rfl, rfl, rfl, rfl, rfl, rfl, rfl, rfl⟩,
    ⟨rfl, rfl, rfl, rfl, rfl, rfl, rfl, rfl, rfl, rfl⟩,
    ⟨rfl, rfl, rfl, rfl, rfl, rfl, rfl, rfl, rfl, rfl⟩,
    ⟨rfl, rfl, rfl, rfl, rfl, rfl, rfl, rfl, rfl, rfl⟩⟩

/-- C10: empty stdout decodes to the empty text, popping the final
character of the empty string is a no-op, and `execute_as_input` returns
`Ok ""` rather than an error. -/
theorem execute_as_input_empty_stdout :
    DMenu.default.execute_as_input (.output []) = .ok "" := rfl
